import Mathlib

/-!
Shallow embedding of the workflow-orchestration core of the Technical
Documentation Suite (`src/main.py`, called the *root* app below, and
`src/src/tech_doc_suite/main.py`, called the *tds* app below).

The repository contains two near-identical snapshots of the application.
They share the data model (`WorkflowStatus`, `AgentStatus`), the demo
pipeline (`execute_next_agent`) and the creation flow, but differ in the
poll endpoint: the root app's `get_workflow_status` performs the demo
auto-advance and has no timeout check, while the tds app's
`get_workflow_status` performs the timeout check and no demo
auto-advance.  The tds app additionally has the background real pipeline
`run_ai_workflow_background`, the transition history, and the
`/stop-workflow` endpoint.

Conventions of the embedding:
* `datetime.now()` values are abstract clock readings of type `Nat`;
  each operation that reads the clock takes the reading as a parameter.
* A workflow's membership in the global `agent_execution_queue` dict is
  `queue : Option (List AgentName)` (`none` = key absent).
* The opaque `result` payload is reduced to a tag recording which kind
  of result was stored.
* Python dict iteration over the (fixed, seven-key) per-workflow agent
  map is modelled by pointwise function update, which is faithful
  because every loop body in the source touches each key independently.
-/

namespace TechDocSuite

/-- The seven stage identifiers, in the order of the
`agent_names` list of `initialize_workflow_agents`. -/
inductive AgentName where
  | code_analyzer
  | doc_writer
  | translation_agent
  | diagram_generator
  | quality_reviewer
  | orchestrator
  | feedback_collector
deriving DecidableEq, Fintype, Repr

/-- Per-stage status strings of `AgentStatus.status`
("idle", "active", "completed", "error"). -/
inductive AgentStatusKind where
  | idle
  | active
  | completed
  | error
deriving DecidableEq, Fintype, Repr

/-- Workflow status strings of `WorkflowStatus.status`. -/
inductive WfStatus where
  | initiated
  | processing
  | completed
  | failed
  | stopped
deriving DecidableEq, Fintype, Repr

/-- Which kind of result payload was stored in `WorkflowStatus.result`
(the payloads themselves are opaque to every claim). -/
inductive ResultKind where
  | demoResult
  | realResult
deriving DecidableEq, Repr

/-- One entry of the per-workflow `agents` dict (`AgentStatus` model). -/
structure AgentState where
  status : AgentStatusKind
  progress : Nat
  currentTask : Option String
  startedAt : Option Nat
  completedAt : Option Nat
deriving DecidableEq, Repr

/-- One record of `agent_transition_history` as appended by
`update_agent_status_with_history` in the tds app. -/
structure Transition where
  timestamp : Nat
  agent : AgentName
  status : AgentStatusKind
  progress : Nat
  task : String
  workflowProgress : Nat
deriving DecidableEq, Repr

/-- The full mutable state attached to one workflow id: the
`WorkflowStatus` record, its `agent_execution_queue` entry (`none` when
the key has been deleted) and its `agent_transition_history` list. -/
structure WorkflowState where
  status : WfStatus
  progress : Nat
  message : String
  createdAt : Nat
  completedAt : Option Nat
  currentAgent : Option AgentName
  agents : AgentName → AgentState
  queue : Option (List AgentName)
  result : Option ResultKind
  aiPowered : Bool
  history : List Transition

/-- The `agent_names` registry order used by
`initialize_workflow_agents` in both apps. -/
def agentOrder : List AgentName :=
  [.code_analyzer, .doc_writer, .translation_agent, .diagram_generator,
   .quality_reviewer, .orchestrator, .feedback_collector]

/-- `agent_name.replace("_", " ").title()`. -/
def agentTitle : AgentName → String
  | .code_analyzer => "Code Analyzer"
  | .doc_writer => "Doc Writer"
  | .translation_agent => "Translation Agent"
  | .diagram_generator => "Diagram Generator"
  | .quality_reviewer => "Quality Reviewer"
  | .orchestrator => "Orchestrator"
  | .feedback_collector => "Feedback Collector"

/-- The per-agent record built by `initialize_workflow_agents`:
status "idle", progress 0, no task and no timestamps. -/
def initAgents : AgentName → AgentState :=
  fun _ => { status := .idle, progress := 0, currentTask := none,
             startedAt := none, completedAt := none }

/-- The workflow record right after `POST /generate` has created the
`WorkflowStatus` ("initiated", progress 0) and
`initialize_workflow_agents` has filled the agent map and registered
the execution queue.  `t` is the creation clock reading. -/
def baseCreated (t : Nat) : WorkflowState :=
  { status := .initiated, progress := 0,
    message := "Initializing documentation generation workflow",
    createdAt := t, completedAt := none, currentAgent := none,
    agents := initAgents, queue := some agentOrder, result := none,
    aiPowered := false, history := [] }

/-- The empty-queue branch of `execute_next_agent`: the workflow is
finalized with the canned demo result.  The queue entry itself is left
in the dict (an empty list stays an empty list). -/
def completeDemo (t : Nat) (s : WorkflowState) : WorkflowState :=
  { s with status := .completed, progress := 100,
           message := "Documentation generation completed successfully",
           completedAt := some t, currentAgent := none,
           result := some .demoResult }

/-- `execute_next_agent` (identical in both apps, up to the canned
result payload): with a missing or empty queue it finalizes the demo
workflow; otherwise it pops the head of the queue, makes that agent
active (progress 50, started now, task "Processing repository data"),
recomputes the workflow progress as
`min(10 + (7 - len(queue_after_pop)) * 12, 90)`, and marks every other
currently-active agent completed (progress 100, completed now). -/
def executeNextAgent (t : Nat) (s : WorkflowState) : WorkflowState :=
  match s.queue with
  | none => completeDemo t s
  | some [] => completeDemo t s
  | some (next :: rest) =>
    let s1 : WorkflowState :=
      { s with queue := some rest,
               currentAgent := some next,
               progress := min (10 + (7 - rest.length) * 12) 90,
               message := "Agent " ++ agentTitle next ++ " is processing",
               agents := fun a =>
                 if a = next then
                   { s.agents a with
                       status := .active, startedAt := some t,
                       currentTask := some "Processing repository data",
                       progress := 50 }
                 else s.agents a }
    { s1 with agents := fun a =>
        if a ≠ next ∧ (s1.agents a).status = .active then
          { s1.agents a with
              status := .completed, progress := 100,
              completedAt := some t }
        else s1.agents a }

/-- The demo-mode creation path, identical in both apps: creation,
agent/queue registration, status "processing" / progress 5 /
`ai_powered = False`, demo message, then one `execute_next_agent`. -/
def demoCreate (t : Nat) : WorkflowState :=
  executeNextAgent t
    { baseCreated t with
        status := .processing, progress := 5,
        message := "Running in demo mode (set GEMINI_API_KEY for real AI generation)",
        aiPowered := false }

/-- The real-mode creation path in the tds app, up to the point where
the clone has succeeded and `run_ai_workflow_background` is scheduled:
creation, registration, status "processing" / progress 5 /
`ai_powered = True`. -/
def realCreate (t : Nat) : WorkflowState :=
  { baseCreated t with
      status := .processing, progress := 5,
      message := "Workflow initialized, starting documentation generation",
      aiPowered := true }

/-- The record appended to `agent_transition_history` by
`update_agent_status_with_history` (tds app).  `wfProgress` is the
workflow progress read at append time. -/
def mkTransition (t : Nat) (name : AgentName) (st : AgentStatusKind)
    (prog : Nat) (task : Option String) (wfProgress : Nat) : Transition :=
  { timestamp := t, agent := name, status := st, progress := prog,
    task := task.getD "", workflowProgress := wfProgress }

/-- The cap of `update_agent_status_with_history`: after appending, if
the history holds more than 20 records, only the last 20 are kept. -/
def truncHistory (h : List Transition) : List Transition :=
  if 20 < h.length then h.drop (h.length - 20) else h

/-- `update_agent_status_with_history` (tds app): writes the agent's
status and progress, optionally its current task, stamps `started_at`
on "active" and `completed_at` on "completed", then appends a
transition record and enforces the 20-record cap. -/
def updateAgentStatusWithHistory (t : Nat) (name : AgentName)
    (st : AgentStatusKind) (prog : Nat) (task : Option String)
    (s : WorkflowState) : WorkflowState :=
  let s1 : WorkflowState :=
    { s with agents := fun a =>
        if a = name then
          let a1 := { s.agents a with status := st, progress := prog }
          let a2 := match task with
                    | some tk => { a1 with currentTask := some tk }
                    | none => a1
          match st with
          | .active => { a2 with startedAt := some t }
          | .completed => { a2 with completedAt := some t }
          | _ => a2
        else s.agents a }
  { s1 with history :=
      truncHistory (s1.history ++ [mkTransition t name st prog task s1.progress]) }

/-- One statement of the straight-line body of
`run_ai_workflow_background` (tds app). -/
inductive Step where
  | setWf (p : Nat) (msg : String)
  | setCurrent (a : Option AgentName)
  | agentUpd (name : AgentName) (st : AgentStatusKind) (prog : Nat) (task : String)
  | finalComplete
deriving DecidableEq, Repr

/-- Effect of one `Step` on the workflow state; `t` is the clock
reading used for every timestamp the step writes. -/
def applyStep (t : Nat) (s : WorkflowState) : Step → WorkflowState
  | .setWf p m => { s with progress := p, message := m }
  | .setCurrent a => { s with currentAgent := a }
  | .agentUpd n st p task => updateAgentStatusWithHistory t n st p (some task) s
  | .finalComplete =>
      { s with status := .completed, progress := 100,
               message := "Documentation generation completed successfully",
               completedAt := some t, currentAgent := none,
               result := some .realResult }

/-- Runs a list of steps in order. -/
def applySteps (t : Nat) (steps : List Step) (s : WorkflowState) : WorkflowState :=
  steps.foldl (applyStep t) s

/-- The exact sequence of state updates performed by the successful run
of `run_ai_workflow_background` (tds app), in source order.
`hasLangs` selects the branch of phase 4 taken when
`request.translation_languages` is nonempty (the per-language loop
itself performs no status updates beyond the two modelled here; the
language count interpolated into one task string is abstracted away). -/
def realScript (hasLangs : Bool) : List Step :=
  [.setWf 10 "Content Orchestrator initializing workflow",
   .setCurrent (some .orchestrator),
   .agentUpd .orchestrator .active 10 "Initializing workflow coordination",
   .setWf 20 "Orchestrator directing code analysis",
   .agentUpd .orchestrator .active 20 "Coordinating code analysis phase",
   .agentUpd .code_analyzer .active 25 "Analyzing repository structure",
   .agentUpd .code_analyzer .active 75 "Extracting functions and classes",
   .agentUpd .orchestrator .active 25 "Monitoring code analysis progress",
   .agentUpd .code_analyzer .completed 100 "Analysis completed",
   .agentUpd .orchestrator .active 30 "Code analysis completed, proceeding to documentation",
   .setWf 40 "Orchestrator directing documentation generation",
   .agentUpd .orchestrator .active 40 "Coordinating documentation generation",
   .agentUpd .doc_writer .active 20 "Initializing AI documentation generation",
   .agentUpd .doc_writer .active 60 "Generating documentation content",
   .agentUpd .orchestrator .active 45 "Monitoring documentation generation",
   .agentUpd .doc_writer .completed 100 "Documentation generation completed",
   .agentUpd .orchestrator .active 50 "Documentation completed, proceeding to diagrams",
   .setWf 60 "Orchestrator directing diagram creation",
   .agentUpd .orchestrator .active 60 "Coordinating diagram generation",
   .agentUpd .diagram_generator .active 30 "Analyzing project architecture",
   .agentUpd .diagram_generator .active 70 "Creating Mermaid diagrams",
   .agentUpd .orchestrator .active 65 "Monitoring diagram creation",
   .agentUpd .diagram_generator .completed 100 "Diagrams created successfully",
   .agentUpd .orchestrator .active 70 "Diagrams completed, proceeding to translation",
   .setWf 75 "Orchestrator directing translation services",
   .agentUpd .orchestrator .active 75 "Coordinating translation phase",
   .agentUpd .translation_agent .active 25 "Preparing translation services"]
  ++ (if hasLangs then
       [.agentUpd .translation_agent .active 60 "Translating to selected languages",
        .agentUpd .orchestrator .active 78 "Monitoring translation progress"]
      else
       [.agentUpd .translation_agent .active 80 "No translations requested"])
  ++ [.agentUpd .translation_agent .completed 100 "Translation completed",
   .agentUpd .orchestrator .active 80 "Translation completed, proceeding to quality review",
   .setWf 85 "Orchestrator directing quality review",
   .agentUpd .orchestrator .active 85 "Coordinating quality review",
   .agentUpd .quality_reviewer .active 30 "Analyzing documentation quality",
   .agentUpd .quality_reviewer .active 70 "Calculating quality metrics",
   .agentUpd .orchestrator .active 88 "Monitoring quality review",
   .agentUpd .quality_reviewer .completed 100 "Quality review completed",
   .agentUpd .orchestrator .active 90 "Quality review completed, setting up feedback",
   .setWf 95 "Orchestrator setting up feedback collection",
   .agentUpd .orchestrator .active 95 "Coordinating feedback setup",
   .agentUpd .feedback_collector .active 50 "Setting up feedback mechanisms",
   .agentUpd .feedback_collector .active 90 "Finalizing feedback setup",
   .agentUpd .orchestrator .active 98 "Finalizing workflow",
   .agentUpd .feedback_collector .completed 100 "Feedback collection ready",
   .agentUpd .orchestrator .completed 100 "Workflow orchestration completed successfully",
   .finalComplete]

/-- The successful run of `run_ai_workflow_background` (tds app): the
transition history is reinitialized to empty, then the script runs to
its final-completion block. -/
def runAiWorkflowSuccess (t : Nat) (hasLangs : Bool) (s : WorkflowState) : WorkflowState :=
  applySteps t (realScript hasLangs) { s with history := [] }

/-- The intermediate state reached after the first `n` updates of the
background run started from the tds real-mode creation state. -/
def stateAfterReal (t tc : Nat) (hasLangs : Bool) (n : Nat) : WorkflowState :=
  applySteps t ((realScript hasLangs).take n) { realCreate tc with history := [] }

/-- The `except` handler of `run_ai_workflow_background` (tds app):
the workflow becomes "failed" (progress 100, completed now, no current
agent) and every agent still "active" is reset to "idle" / progress 0. -/
def runFailureHandler (t : Nat) (msg : String) (s : WorkflowState) : WorkflowState :=
  { s with status := .failed, progress := 100,
           message := "Workflow failed: " ++ msg,
           completedAt := some t, currentAgent := none,
           agents := fun a =>
             if (s.agents a).status = .active then
               { s.agents a with status := .idle, progress := 0 }
             else s.agents a }

/-- The timeout check of the tds app's `get_workflow_status`: a
"processing" workflow polled strictly more than 900 seconds after its
creation is forced to "failed" (progress 100, timeout message,
completed now, current agent cleared) and its execution-queue entry is
deleted.  Any other poll leaves the state untouched. -/
def tdsGetStatusCheck (now : Nat) (s : WorkflowState) : WorkflowState :=
  if s.status = .processing then
    if 900 < now - s.createdAt then
      { s with status := .failed, progress := 100,
               message := "Workflow timed out - please try again",
               completedAt := some now, currentAgent := none,
               queue := none }
    else s
  else s

/-- The externally visible slice of the transition history returned by
the tds app's `get_workflow_status`: the last 10 records. -/
def visibleHistory (s : WorkflowState) : List Transition :=
  s.history.drop (s.history.length - 10)

/-- The poll-time completion of the current agent in the root app's
`get_workflow_status` demo auto-advance. -/
def completeAgent (now : Nat) (a : AgentName) (s : WorkflowState) : WorkflowState :=
  { s with agents := fun x =>
      if x = a then
        { s.agents x with
            status := .completed, progress := 100,
            completedAt := some now }
      else s.agents x }

/-- The root app's `get_workflow_status` mutation: only for a
"processing" workflow that still has an execution-queue entry and is
not AI-powered, and only when its current agent has a start timestamp
more than 3 seconds old, the current agent is completed and
`execute_next_agent` advances the queue.  Every other poll leaves the
state untouched. -/
def pollStatus (now : Nat) (s : WorkflowState) : WorkflowState :=
  if s.status = .processing ∧ s.queue.isSome ∧ s.aiPowered = false then
    match s.currentAgent with
    | some a =>
      match (s.agents a).startedAt with
      | some st =>
        if 3 < now - st then executeNextAgent now (completeAgent now a s)
        else s
      | none => s
    | none => s
  else s

/-- Outcome of `POST /stop-workflow` (tds app): HTTP 404, HTTP 400, or
success. -/
inductive StopOutcome where
  | notFound
  | invalidState
  | ok
deriving DecidableEq, Repr

/-- The mutation of the successful branch of `stop_workflow` (tds
app): status "stopped", progress 100, stop message, completed now,
current agent cleared, every agent reset to "idle" / progress 0, and
the execution-queue entry deleted. -/
def applyStop (t : Nat) (s : WorkflowState) : WorkflowState :=
  { s with status := .stopped, progress := 100,
           message := "Workflow stopped by user",
           completedAt := some t, currentAgent := none,
           agents := fun a => { s.agents a with status := .idle, progress := 0 },
           queue := none }

/-- `stop_workflow` (tds app) over the workflow store entry for the
requested id: 404 when the id is unknown, 400 when the workflow is not
"processing", otherwise the stop mutation. -/
def stopWorkflow (t : Nat) (store : Option WorkflowState) :
    StopOutcome × Option WorkflowState :=
  match store with
  | none => (.notFound, none)
  | some s =>
    if s.status = .processing then (.ok, some (applyStop t s))
    else (.invalidState, some s)

/-- The outer `except` handler of `generate_documentation` (identical
in both apps): the workflow is marked "failed" and the message records
the underlying error; no other field (in particular `completed_at`) is
written. -/
def creationFailure (msg : String) (s : WorkflowState) : WorkflowState :=
  { s with status := .failed, message := "Generation failed: " ++ msg }

/-- The clone-failure handler inside the tds app's
`generate_documentation`: the exception is swallowed, `ai_powered` is
cleared, and the workflow falls back to the demo pipeline via one
`execute_next_agent`. -/
def tdsCloneFailure (t : Nat) (s : WorkflowState) : WorkflowState :=
  executeNextAgent t { s with aiPowered := false }

/-- Poll times of a demo run that qualifies for the auto-advance on
every poll (each gap exceeds the 3-second dwell time). -/
def demoPollTimes : List Nat := [4, 8, 12, 16, 20, 24]

/-- The root-app demo workflow created at time 0 and polled at times
4, 8, ..., 24: six auto-advances after the creation-time one, leaving
`feedback_collector` active with an empty queue. -/
def demoAfterSixPolls : WorkflowState :=
  demoPollTimes.foldl (fun s tm => pollStatus tm s) (demoCreate 0)

/-- "Terminal" workflow statuses in the sense of the spec. -/
def WfStatus.isTerminal : WfStatus → Bool
  | .completed => true
  | .failed => true
  | .stopped => true
  | _ => false

/-- The invariant direction "completedAt set implies terminal". -/
def completedAtImpliesTerminal (s : WorkflowState) : Prop :=
  s.completedAt ≠ none → s.status.isTerminal = true

/-- Bool test for an "active" stage status. -/
def statusIsActive : AgentStatusKind → Bool
  | .active => true
  | _ => false

/-- Number of stages currently in status "active". -/
def activeCount (s : WorkflowState) : Nat :=
  (agentOrder.filter (fun a => statusIsActive (s.agents a).status)).length

/-- No stage of the workflow is in status "active". -/
def noActiveStage (s : WorkflowState) : Prop :=
  ∀ a, (s.agents a).status ≠ .active

/-- At most one stage of the workflow is in status "active". -/
def atMostOneActive (s : WorkflowState) : Prop :=
  ∀ a b, (s.agents a).status = .active → (s.agents b).status = .active → a = b

theorem truncHistory_length (h : List Transition) (hh : h.length ≤ 21) :
    (truncHistory h).length ≤ 20 := by
  unfold truncHistory
  split
  · simp only [List.length_drop]
    omega
  · omega

theorem truncHistory_suffix (h : List Transition) : truncHistory h <:+ h := by
  unfold truncHistory
  split
  · exact List.drop_suffix _ _
  · exact List.suffix_refl _

theorem tdsGetStatusCheck_eq_of_le (now : Nat) (s : WorkflowState)
    (h : now - s.createdAt ≤ 900) : tdsGetStatusCheck now s = s := by
  unfold tdsGetStatusCheck
  split
  · rw [if_neg (by omega)]
  · rfl

theorem tdsGetStatusCheck_eq_of_not_processing (now : Nat) (s : WorkflowState)
    (h : s.status ≠ .processing) : tdsGetStatusCheck now s = s := by
  unfold tdsGetStatusCheck
  rw [if_neg h]

theorem tdsGetStatusCheck_agents (now : Nat) (s : WorkflowState) :
    (tdsGetStatusCheck now s).agents = s.agents := by
  unfold tdsGetStatusCheck
  split
  · split <;> rfl
  · rfl

/-- C2: a poll of a "processing" workflow arriving strictly more than
900 seconds after creation forcibly fails the workflow with the
timeout message, clears the current agent and deletes the pending
execution-queue entry; a poll at or before the threshold, or of a
workflow that is not "processing", changes nothing. -/
theorem c2_timeout_on_poll :
    (∀ now s, s.status = .processing → 900 < now - s.createdAt →
      (tdsGetStatusCheck now s).status = .failed ∧
      (tdsGetStatusCheck now s).message = "Workflow timed out - please try again" ∧
      (tdsGetStatusCheck now s).progress = 100 ∧
      (tdsGetStatusCheck now s).completedAt = some now ∧
      (tdsGetStatusCheck now s).currentAgent = none ∧
      (tdsGetStatusCheck now s).queue = none) ∧
    (∀ now s, now - s.createdAt ≤ 900 → tdsGetStatusCheck now s = s) ∧
    (∀ now s, s.status ≠ .processing → tdsGetStatusCheck now s = s) := by
  refine ⟨?_, tdsGetStatusCheck_eq_of_le, tdsGetStatusCheck_eq_of_not_processing⟩
  intro now s h1 h2
  simp [tdsGetStatusCheck, h1, h2]

/-- Witness for C2: the tds real-mode workflow created at time 0,
polled at 950 (past the threshold) and at 10 (within it). -/
theorem c2_timeout_on_poll_witness :
    ((realCreate 0).status = .processing ∧ 900 < 950 - (realCreate 0).createdAt ∧
      (tdsGetStatusCheck 950 (realCreate 0)).status = .failed ∧
      (tdsGetStatusCheck 950 (realCreate 0)).queue = none) ∧
    (10 - (realCreate 0).createdAt ≤ 900 ∧
      tdsGetStatusCheck 10 (realCreate 0) = realCreate 0) ∧
    ((demoAfterSixPolls.status = .processing → False) → True) :=
  ⟨⟨by decide, by decide,
    (c2_timeout_on_poll.1 950 (realCreate 0) (by decide) (by decide)).1,
    (c2_timeout_on_poll.1 950 (realCreate 0) (by decide) (by decide)).2.2.2.2.2⟩,
   ⟨by decide, c2_timeout_on_poll.2.1 10 (realCreate 0) (by decide)⟩,
   fun _ => trivial⟩

/-- C3: `stop_workflow` returns "not found" exactly for an unknown id,
an invalid-state error exactly when the workflow is not "processing",
and otherwise stops the workflow: status "stopped", every active stage
reset to "idle", the execution-queue entry deleted and `completed_at`
set; no other outcome exists. -/
theorem c3_stop_trichotomy :
    (∀ t, stopWorkflow t none = (.notFound, none)) ∧
    (∀ t s, s.status ≠ .processing →
      stopWorkflow t (some s) = (.invalidState, some s)) ∧
    (∀ t s, s.status = .processing →
      stopWorkflow t (some s) = (.ok, some (applyStop t s)) ∧
      (applyStop t s).status = .stopped ∧
      (∀ a, (s.agents a).status = .active → ((applyStop t s).agents a).status = .idle) ∧
      (applyStop t s).queue = none ∧
      (applyStop t s).completedAt = some t) := by
  refine ⟨fun t => rfl, ?_, ?_⟩
  · intro t s h
    simp [stopWorkflow, h]
  · intro t s h
    refine ⟨by simp [stopWorkflow, h], rfl, fun a _ => rfl, rfl, rfl⟩

/-- Witness for C3: stopping an unknown id, a freshly created
("initiated") workflow, and a "processing" demo workflow. -/
theorem c3_stop_trichotomy_witness :
    stopWorkflow 5 none = (.notFound, none) ∧
    ((baseCreated 0).status ≠ .processing ∧
      stopWorkflow 5 (some (baseCreated 0)) = (.invalidState, some (baseCreated 0))) ∧
    ((demoCreate 0).status = .processing ∧
      stopWorkflow 5 (some (demoCreate 0)) = (.ok, some (applyStop 5 (demoCreate 0)))) :=
  ⟨c3_stop_trichotomy.1 5,
   ⟨by decide, c3_stop_trichotomy.2.1 5 (baseCreated 0) (by decide)⟩,
   ⟨by decide, (c3_stop_trichotomy.2.2 5 (demoCreate 0) (by decide)).1⟩⟩

/-- C9: the per-workflow transition history never exceeds 20 records
and evicts oldest-first (after an append the stored history is a
suffix of the old history extended by the new record), and the
externally visible slice of a status poll is at most the 10 most
recent records. -/
theorem c9_history_bounds :
    (∀ t n st p task s, s.history.length ≤ 20 →
      ((updateAgentStatusWithHistory t n st p task s).history.length ≤ 20 ∧
       (updateAgentStatusWithHistory t n st p task s).history <:+
         s.history ++ [mkTransition t n st p task s.progress])) ∧
    (∀ s, (visibleHistory s).length ≤ 10 ∧ visibleHistory s <:+ s.history) := by
  constructor
  · intro t n st p task s h
    constructor
    · exact truncHistory_length _ (by simp; omega)
    · exact truncHistory_suffix _
  · intro s
    constructor
    · simp only [visibleHistory, List.length_drop]
      omega
    · exact List.drop_suffix _ _

/-- Witness for C9: appending to the empty history of a fresh
workflow. -/
theorem c9_history_bounds_witness :
    ((realCreate 0).history.length ≤ 20 ∧
     (updateAgentStatusWithHistory 1 .orchestrator .active 10
        (some "Initializing workflow coordination") (realCreate 0)).history.length ≤ 20) ∧
    ((visibleHistory (realCreate 0)).length ≤ 10) :=
  ⟨⟨by decide,
    (c9_history_bounds.1 1 .orchestrator .active 10
      (some "Initializing workflow coordination") (realCreate 0) (by decide)).1⟩,
   (c9_history_bounds.2 (realCreate 0)).1⟩

/-- C10: a successful stop resets every stage to "idle" with progress
0 — including stages already "completed" — while leaving each stage's
`started_at`, `completed_at` and `current_task` untouched. -/
theorem c10_stop_frame :
    ∀ t s, s.status = .processing →
      stopWorkflow t (some s) = (.ok, some (applyStop t s)) ∧
      ∀ a, ((applyStop t s).agents a).status = .idle ∧
        ((applyStop t s).agents a).progress = 0 ∧
        ((applyStop t s).agents a).startedAt = (s.agents a).startedAt ∧
        ((applyStop t s).agents a).completedAt = (s.agents a).completedAt ∧
        ((applyStop t s).agents a).currentTask = (s.agents a).currentTask := by
  intro t s h
  exact ⟨by simp [stopWorkflow, h], fun a => ⟨rfl, rfl, rfl, rfl, rfl⟩⟩

/-- Witness for C10: stopping the demo workflow after six qualifying
polls, where six stages are already "completed"; the stop erases their
completed status but keeps their timestamps. -/
theorem c10_stop_frame_witness :
    (demoAfterSixPolls.status = .processing ∧
     (demoAfterSixPolls.agents .code_analyzer).status = .completed) ∧
    ((applyStop 30 demoAfterSixPolls).agents .code_analyzer).status = .idle ∧
    ((applyStop 30 demoAfterSixPolls).agents .code_analyzer).completedAt =
      (demoAfterSixPolls.agents .code_analyzer).completedAt :=
  ⟨⟨by decide, by decide⟩,
   ((c10_stop_frame 30 demoAfterSixPolls (by decide)).2 .code_analyzer).1,
   ((c10_stop_frame 30 demoAfterSixPolls (by decide)).2 .code_analyzer).2.2.2.1⟩

/-- Counterexample to C4 as stated: the tds demo workflow created at
time 0 (stage `code_analyzer` active) and first polled at time 901 is
transitioned to "failed" by the timeout check, yet its `code_analyzer`
stage is still "active" afterwards. -/
theorem c4_counterexample :
    (demoCreate 0).status = .processing ∧
    ((demoCreate 0).agents .code_analyzer).status = .active ∧
    (tdsGetStatusCheck 901 (demoCreate 0)).status = .failed ∧
    ((tdsGetStatusCheck 901 (demoCreate 0)).agents .code_analyzer).status = .active := by
  exact ⟨by decide, by decide, by decide, by decide⟩

/-- Counterexample to C5 as stated: after the sixth update of the
real-pipeline background run the workflow is "processing" while two
distinct stages (`orchestrator` and `code_analyzer`) are "active"
simultaneously, so "exactly one stage Active" fails. -/
theorem c5_counterexample :
    (stateAfterReal 0 0 true 6).status = .processing ∧
    ((stateAfterReal 0 0 true 6).agents .orchestrator).status = .active ∧
    ((stateAfterReal 0 0 true 6).agents .code_analyzer).status = .active := by
  exact ⟨by decide, by decide, by decide⟩

/-- Counterexample to C6 as stated: the creation-time failure handler
of `generate_documentation` marks the workflow "failed" (a terminal
status) but leaves `completed_at` null. -/
theorem c6_counterexample :
    (creationFailure "Git clone failed" (realCreate 0)).status = .failed ∧
    ((creationFailure "Git clone failed" (realCreate 0)).status).isTerminal = true ∧
    (creationFailure "Git clone failed" (realCreate 0)).completedAt = none := by
  exact ⟨by decide, by decide, by decide⟩

/-- Counterexample to C7 as stated: in the tds app a demo workflow
whose current stage has been active for 5 seconds (past the 3-second
dwell time) is left completely unchanged by a status poll — the tds
poll endpoint performs no demo auto-advance. -/
theorem c7_counterexample :
    (demoCreate 0).status = .processing ∧
    (demoCreate 0).aiPowered = false ∧
    (demoCreate 0).currentAgent = some .code_analyzer ∧
    ((demoCreate 0).agents .code_analyzer).startedAt = some 0 ∧
    3 < 5 - 0 ∧
    tdsGetStatusCheck 5 (demoCreate 0) = demoCreate 0 := by
  exact ⟨by decide, by decide, by decide, by decide, by decide, rfl⟩

/-- Counterexample to C8 as stated: in the tds app a clone failure
during creation does not abort the job — the workflow stays
"processing" with `ai_powered` cleared and enters the demo pipeline
(first stage active), with no result stored. -/
theorem c8_counterexample :
    (tdsCloneFailure 1 (realCreate 0)).status = .processing ∧
    (tdsCloneFailure 1 (realCreate 0)).status ≠ .failed ∧
    (tdsCloneFailure 1 (realCreate 0)).result = none ∧
    (tdsCloneFailure 1 (realCreate 0)).aiPowered = false ∧
    ((tdsCloneFailure 1 (realCreate 0)).agents .code_analyzer).status = .active := by
  exact ⟨by decide, by decide, by decide, by decide, by decide⟩

/-- C4 amended: a job that reaches "failed" through the background
task's failure handler, or "stopped" through a user stop, has no
"active" stage afterwards; the timeout-on-poll and creation-time
failure transitions, however, do not touch stage statuses at all, so a
stage that was "active" at poll time remains "active" after the
timeout marks the job "failed". -/
theorem c4_amended :
    (∀ t msg s, noActiveStage (runFailureHandler t msg s)) ∧
    (∀ t s, s.status = .processing →
      stopWorkflow t (some s) = (.ok, some (applyStop t s)) ∧
      noActiveStage (applyStop t s)) ∧
    (∀ now s, (tdsGetStatusCheck now s).agents = s.agents) ∧
    (∀ msg s, (creationFailure msg s).agents = s.agents) := by
  refine ⟨?_, ?_, tdsGetStatusCheck_agents, fun msg s => rfl⟩
  · intro t msg s a
    simp only [runFailureHandler]
    split
    · simp
    · next h => simpa using h
  · intro t s h
    exact ⟨by simp [stopWorkflow, h], fun a => by simp [applyStop]⟩

/-- Witness for C4 amended: the failure handler and a stop applied to
the demo workflow whose `code_analyzer` stage is active, plus the
timeout poll leaving the agent map untouched. -/
theorem c4_amended_witness :
    noActiveStage (runFailureHandler 3 "boom" (demoCreate 0)) ∧
    ((demoCreate 0).status = .processing ∧ noActiveStage (applyStop 3 (demoCreate 0))) ∧
    (tdsGetStatusCheck 901 (demoCreate 0)).agents = (demoCreate 0).agents :=
  ⟨c4_amended.1 3 "boom" (demoCreate 0),
   ⟨by decide, (c4_amended.2.1 3 (demoCreate 0) (by decide)).2⟩,
   c4_amended.2.2.1 901 (demoCreate 0)⟩

/-- C8 amended: in the root app a clone failure during creation aborts
the job — status "failed" with a message carrying the underlying cause
and the (absent) result unchanged; in the tds app the same failure
instead clears `ai_powered` and falls back to the demo pipeline, so
the job stays "processing" with no result. -/
theorem c8_amended :
    (∀ msg s, (creationFailure msg s).status = .failed ∧
      (creationFailure msg s).message = "Generation failed: " ++ msg ∧
      (creationFailure msg s).result = s.result ∧
      (creationFailure msg s).completedAt = s.completedAt) ∧
    (∀ t s next rest, s.status = .processing → s.queue = some (next :: rest) →
      (tdsCloneFailure t s).status = .processing ∧
      (tdsCloneFailure t s).result = s.result ∧
      (tdsCloneFailure t s).aiPowered = false) := by
  constructor
  · intro msg s
    exact ⟨rfl, rfl, rfl, rfl⟩
  · intro t s next rest h hq
    unfold tdsCloneFailure executeNextAgent
    simp only [hq]
    simp [h]

/-- Witness for C8 amended: the root clone failure on the fresh
real-mode workflow and the tds fallback on the same state. -/
theorem c8_amended_witness :
    ((creationFailure "Failed to clone repository" (realCreate 0)).status = .failed ∧
     (creationFailure "Failed to clone repository" (realCreate 0)).result =
       (realCreate 0).result) ∧
    ((realCreate 0).status = .processing ∧
     (tdsCloneFailure 1 (realCreate 0)).status = .processing) :=
  ⟨⟨(c8_amended.1 "Failed to clone repository" (realCreate 0)).1,
    (c8_amended.1 "Failed to clone repository" (realCreate 0)).2.2.1⟩,
   ⟨by decide,
    (c8_amended.2 1 (realCreate 0) .code_analyzer
      [.doc_writer, .translation_agent, .diagram_generator, .quality_reviewer,
       .orchestrator, .feedback_collector] (by decide) (by decide)).1⟩⟩

theorem pollStatus_advance_eq (now st : Nat) (s : WorkflowState) (a : AgentName)
    (l : List AgentName)
    (h1 : s.status = .processing) (h2 : s.aiPowered = false)
    (hq : s.queue = some l) (hca : s.currentAgent = some a)
    (hst : (s.agents a).startedAt = some st) (hd : 3 < now - st) :
    pollStatus now s = executeNextAgent now (completeAgent now a s) := by
  unfold pollStatus
  rw [if_pos ⟨h1, by rw [hq]; rfl, h2⟩]
  simp only [hca, hst]
  rw [if_pos hd]

theorem executeNextAgent_pop_fields (t : Nat) (s : WorkflowState) (next : AgentName)
    (rest : List AgentName) (hq : s.queue = some (next :: rest)) :
    (executeNextAgent t s).currentAgent = some next ∧
    (executeNextAgent t s).queue = some rest ∧
    (executeNextAgent t s).status = s.status ∧
    (executeNextAgent t s).result = s.result ∧
    (executeNextAgent t s).aiPowered = s.aiPowered ∧
    (executeNextAgent t s).completedAt = s.completedAt := by
  unfold executeNextAgent
  rw [hq]
  exact ⟨rfl, rfl, rfl, rfl, rfl, rfl⟩

theorem executeNextAgent_pop_next (t : Nat) (s : WorkflowState) (next : AgentName)
    (rest : List AgentName) (hq : s.queue = some (next :: rest)) :
    ((executeNextAgent t s).agents next).status = .active ∧
    ((executeNextAgent t s).agents next).startedAt = some t ∧
    ((executeNextAgent t s).agents next).progress = 50 := by
  unfold executeNextAgent
  rw [hq]
  simp

theorem executeNextAgent_pop_unchanged (t : Nat) (s : WorkflowState) (next : AgentName)
    (rest : List AgentName) (hq : s.queue = some (next :: rest)) (a : AgentName)
    (ha : a ≠ next) (hact : (s.agents a).status ≠ .active) :
    (executeNextAgent t s).agents a = s.agents a := by
  unfold executeNextAgent
  rw [hq]
  simp [ha, hact]

theorem executeNextAgent_active_iff (t : Nat) (s : WorkflowState) (next : AgentName)
    (rest : List AgentName) (hq : s.queue = some (next :: rest)) (a : AgentName) :
    ((executeNextAgent t s).agents a).status = .active ↔ a = next := by
  unfold executeNextAgent
  rw [hq]
  by_cases ha : a = next
  · subst ha
    simp
  · by_cases hact : (s.agents a).status = .active
    · simp [ha, hact]
    · simp [ha, hact]

/-- C7 amended: in the root app, a status poll of a "processing" demo
workflow whose current stage has been active longer than the 3-second
dwell time completes that stage and advances exactly the head of the
queue (never more, never skipping), while a poll within the dwell
time changes nothing; in the tds app a status poll never auto-advances
a demo workflow — short of the timeout threshold it changes nothing at
all. -/
theorem c7_demo_advance :
    (∀ now st s a next rest,
      s.status = .processing → s.aiPowered = false →
      s.queue = some (next :: rest) → s.currentAgent = some a →
      (s.agents a).startedAt = some st → 3 < now - st → a ≠ next →
      (pollStatus now s).currentAgent = some next ∧
      (pollStatus now s).queue = some rest ∧
      ((pollStatus now s).agents a).status = .completed ∧
      ((pollStatus now s).agents a).progress = 100 ∧
      ((pollStatus now s).agents a).completedAt = some now ∧
      ((pollStatus now s).agents next).status = .active ∧
      ((pollStatus now s).agents next).startedAt = some now) ∧
    (∀ now st s a,
      s.currentAgent = some a → (s.agents a).startedAt = some st →
      now - st ≤ 3 → pollStatus now s = s) ∧
    (∀ now s, now - s.createdAt ≤ 900 → tdsGetStatusCheck now s = s) := by
  refine ⟨?_, ?_, tdsGetStatusCheck_eq_of_le⟩
  · intro now st s a next rest h1 h2 hq hca hst hd ha
    rw [pollStatus_advance_eq now st s a (next :: rest) h1 h2 hq hca hst hd]
    have hq2 : (completeAgent now a s).queue = some (next :: rest) := hq
    have hua : (executeNextAgent now (completeAgent now a s)).agents a =
        (completeAgent now a s).agents a := by
      refine executeNextAgent_pop_unchanged now _ next rest hq2 a ha ?_
      simp [completeAgent]
    have hfields := executeNextAgent_pop_fields now _ next rest hq2
    have hnext := executeNextAgent_pop_next now _ next rest hq2
    refine ⟨hfields.1, hfields.2.1, ?_, ?_, ?_, hnext.1, hnext.2.1⟩
    · rw [hua]; simp [completeAgent]
    · rw [hua]; simp [completeAgent]
    · rw [hua]; simp [completeAgent]
  · intro now st s a hca hst hd
    unfold pollStatus
    split
    · simp only [hca, hst]
      rw [if_neg (by omega)]
    · rfl

/-- Witness for C7 amended: the root demo workflow polled at time 4
(advancing `code_analyzer` → `doc_writer`) and polled at time 2
(within dwell: no change), plus a tds poll at time 5 changing nothing. -/
theorem c7_demo_advance_witness :
    ((pollStatus 4 (demoCreate 0)).currentAgent = some .doc_writer ∧
     (pollStatus 4 (demoCreate 0)).queue =
       some [.translation_agent, .diagram_generator, .quality_reviewer,
             .orchestrator, .feedback_collector] ∧
     ((pollStatus 4 (demoCreate 0)).agents .code_analyzer).status = .completed) ∧
    pollStatus 2 (demoCreate 0) = demoCreate 0 ∧
    tdsGetStatusCheck 5 (demoCreate 0) = demoCreate 0 := by
  have h := c7_demo_advance.1 4 0 (demoCreate 0) .code_analyzer .doc_writer
    [.translation_agent, .diagram_generator, .quality_reviewer,
     .orchestrator, .feedback_collector]
    (by decide) (by decide) (by decide) (by decide) (by decide) (by decide) (by decide)
  exact ⟨⟨h.1, h.2.1, h.2.2.1⟩,
    c7_demo_advance.2.1 2 0 (demoCreate 0) .code_analyzer (by decide) (by decide) (by decide),
    c7_demo_advance.2.2 5 (demoCreate 0) (by decide)⟩

theorem inv_executeNextAgent (t : Nat) (s : WorkflowState)
    (h : completedAtImpliesTerminal s) :
    completedAtImpliesTerminal (executeNextAgent t s) := by
  unfold executeNextAgent
  cases hq : s.queue with
  | none => exact fun _ => rfl
  | some l =>
    cases l with
    | nil => exact fun _ => rfl
    | cons next rest => exact h

theorem inv_pollStatus (now : Nat) (s : WorkflowState)
    (h : completedAtImpliesTerminal s) :
    completedAtImpliesTerminal (pollStatus now s) := by
  unfold pollStatus
  split
  · split
    · split
      · split
        · apply inv_executeNextAgent
          exact h
        · exact h
      · exact h
    · exact h
  · exact h

/-- C6 amended: `completed_at` being set implies a terminal status,
and this implication is preserved by every operation of both apps;
every terminal transition stamps `completed_at` — except the
creation-time failure handler, which sets status "failed" while
leaving `completed_at` null, so the "if" direction of the claimed
equivalence fails exactly there. -/
theorem c6_completedAt_terminal :
    (∀ t s, completedAtImpliesTerminal s →
      completedAtImpliesTerminal (executeNextAgent t s)) ∧
    (∀ t n st p task s, completedAtImpliesTerminal s →
      completedAtImpliesTerminal (updateAgentStatusWithHistory t n st p task s)) ∧
    (∀ now s, completedAtImpliesTerminal s →
      completedAtImpliesTerminal (pollStatus now s)) ∧
    (∀ now s, completedAtImpliesTerminal s →
      completedAtImpliesTerminal (tdsGetStatusCheck now s)) ∧
    (∀ t b s, completedAtImpliesTerminal (runAiWorkflowSuccess t b s) ∧
      (runAiWorkflowSuccess t b s).completedAt = some t) ∧
    (∀ t msg s, completedAtImpliesTerminal (runFailureHandler t msg s) ∧
      (runFailureHandler t msg s).completedAt = some t) ∧
    (∀ t s, completedAtImpliesTerminal (applyStop t s) ∧
      (applyStop t s).completedAt = some t) ∧
    (∀ t s, completedAtImpliesTerminal (completeDemo t s) ∧
      (completeDemo t s).completedAt = some t) ∧
    (∀ now s, s.status = .processing → 900 < now - s.createdAt →
      (tdsGetStatusCheck now s).completedAt = some now) ∧
    (∀ t, completedAtImpliesTerminal (baseCreated t) ∧
      completedAtImpliesTerminal (realCreate t)) ∧
    (∀ msg s, completedAtImpliesTerminal (creationFailure msg s) ∧
      (s.completedAt = none → (creationFailure msg s).status = .failed ∧
        (creationFailure msg s).completedAt = none)) := by
  refine ⟨inv_executeNextAgent, ?_, inv_pollStatus, ?_, ?_, ?_, ?_, ?_, ?_, ?_, ?_⟩
  · intro t n st p task s h
    exact h
  · intro now s h
    unfold tdsGetStatusCheck
    split
    · split
      · exact fun _ => rfl
      · exact h
    · exact h
  · intro t b s
    cases b
    · exact ⟨fun _ => rfl, rfl⟩
    · exact ⟨fun _ => rfl, rfl⟩
  · intro t msg s
    exact ⟨fun _ => rfl, rfl⟩
  · intro t s
    exact ⟨fun _ => rfl, rfl⟩
  · intro t s
    exact ⟨fun _ => rfl, rfl⟩
  · intro now s h1 h2
    simp [tdsGetStatusCheck, h1, h2]
  · intro t
    exact ⟨fun hc => absurd rfl hc, fun hc => absurd rfl hc⟩
  · intro msg s
    exact ⟨fun _ => rfl, fun hc => ⟨rfl, hc⟩⟩

/-- Witness for C6 amended: preservation applied to the demo workflow
(whose `completed_at` is null), and the creation-time failure leaving
`completed_at` null while marking the workflow "failed". -/
theorem c6_completedAt_terminal_witness :
    (completedAtImpliesTerminal (demoCreate 0) ∧
     completedAtImpliesTerminal (executeNextAgent 4 (demoCreate 0)) ∧
     completedAtImpliesTerminal (pollStatus 4 (demoCreate 0)) ∧
     completedAtImpliesTerminal (tdsGetStatusCheck 901 (demoCreate 0))) ∧
    ((realCreate 0).completedAt = none ∧
     (creationFailure "Git clone failed" (realCreate 0)).status = .failed ∧
     (creationFailure "Git clone failed" (realCreate 0)).completedAt = none) := by
  have h0 : completedAtImpliesTerminal (demoCreate 0) := fun hc => absurd rfl hc
  have h10 := (c6_completedAt_terminal.2.2.2.2.2.2.2.2.2.2 "Git clone failed"
    (realCreate 0)).2 (by decide)
  exact ⟨⟨h0, c6_completedAt_terminal.1 4 (demoCreate 0) h0,
          c6_completedAt_terminal.2.2.1 4 (demoCreate 0) h0,
          c6_completedAt_terminal.2.2.2.1 901 (demoCreate 0) h0⟩,
         ⟨by decide, h10.1, h10.2⟩⟩

theorem applyStep_status_congr (t t' : Nat) (st : Step) (s s' : WorkflowState)
    (h : ∀ a, (s.agents a).status = (s'.agents a).status) :
    ∀ a, ((applyStep t s st).agents a).status = ((applyStep t' s' st).agents a).status := by
  intro a
  cases st with
  | setWf p m => exact h a
  | setCurrent x => exact h a
  | finalComplete => exact h a
  | agentUpd n k p task =>
    show ((updateAgentStatusWithHistory t n k p (some task) s).agents a).status =
      ((updateAgentStatusWithHistory t' n k p (some task) s').agents a).status
    unfold updateAgentStatusWithHistory
    dsimp only
    by_cases hn : a = n
    · subst hn
      rw [if_pos rfl, if_pos rfl]
      cases k <;> rfl
    · rw [if_neg hn, if_neg hn]
      exact h a

theorem applySteps_status_congr (steps : List Step) (t t' : Nat) :
    ∀ (s s' : WorkflowState), (∀ a, (s.agents a).status = (s'.agents a).status) →
    ∀ a, ((applySteps t steps s).agents a).status =
      ((applySteps t' steps s').agents a).status := by
  induction steps with
  | nil => exact fun s s' h a => h a
  | cons st rest ih =>
    intro s s' h a
    exact ih (applyStep t s st) (applyStep t' s' st)
      (applyStep_status_congr t t' st s s' h) a

theorem activeCount_congr (s s' : WorkflowState)
    (h : ∀ a, (s.agents a).status = (s'.agents a).status) :
    activeCount s = activeCount s' := by
  unfold activeCount
  congr 1
  apply List.filter_congr
  intro a _
  rw [h a]

theorem stateAfterReal_sat (t tc : Nat) (b : Bool) (n : Nat)
    (h : (realScript b).length ≤ n) :
    stateAfterReal t tc b n = stateAfterReal t tc b (realScript b).length := by
  unfold stateAfterReal
  rw [List.take_of_length_le h, List.take_length]

theorem realRun_activeCount_le_true :
    ∀ n ∈ List.range ((realScript true).length + 1),
      activeCount (stateAfterReal 0 0 true n) ≤ 2 := by decide

theorem realRun_activeCount_le_false :
    ∀ n ∈ List.range ((realScript false).length + 1),
      activeCount (stateAfterReal 0 0 false n) ≤ 2 := by decide

theorem executeNextAgent_atMostOne (t : Nat) (s : WorkflowState)
    (h : atMostOneActive s) : atMostOneActive (executeNextAgent t s) := by
  cases hq : s.queue with
  | none =>
    have he : executeNextAgent t s = completeDemo t s := by
      unfold executeNextAgent; rw [hq]
    intro x y hx hy
    rw [he] at hx hy
    exact h x y hx hy
  | some l =>
    cases l with
    | nil =>
      have he : executeNextAgent t s = completeDemo t s := by
        unfold executeNextAgent; rw [hq]
      intro x y hx hy
      rw [he] at hx hy
      exact h x y hx hy
    | cons next rest =>
      intro x y hx hy
      rw [executeNextAgent_active_iff t s next rest hq x] at hx
      rw [executeNextAgent_active_iff t s next rest hq y] at hy
      rw [hx, hy]

theorem completeAgent_active (now : Nat) (a : AgentName) (s : WorkflowState)
    (x : AgentName) (hx : ((completeAgent now a s).agents x).status = .active) :
    (s.agents x).status = .active := by
  by_cases hxa : x = a
  · subst hxa
    simp [completeAgent] at hx
  · simpa [completeAgent, hxa] using hx

theorem pollStatus_atMostOne (now : Nat) (s : WorkflowState)
    (h : atMostOneActive s) : atMostOneActive (pollStatus now s) := by
  unfold pollStatus
  split
  · split
    · split
      · split
        · apply executeNextAgent_atMostOne
          intro x y hx hy
          exact h x y (completeAgent_active now _ s x hx) (completeAgent_active now _ s y hy)
        · exact h
      · exact h
    · exact h
  · exact h

/-- C5 amended: during the background real-pipeline run, at every
intermediate point at most TWO stages are "active" — the orchestrator
stage is deliberately kept active alongside the current phase stage,
so "exactly one" fails — while in the demo pipeline an advance makes
exactly the popped stage active and a status poll preserves
"at most one stage active". -/
theorem c5_active_stages :
    (∀ t tc b n, activeCount (stateAfterReal t tc b n) ≤ 2) ∧
    (∀ t s next rest, s.queue = some (next :: rest) →
      ∀ a, ((executeNextAgent t s).agents a).status = .active ↔ a = next) ∧
    (∀ now s, atMostOneActive s → atMostOneActive (pollStatus now s)) := by
  refine ⟨?_, executeNextAgent_active_iff, pollStatus_atMostOne⟩
  intro t tc b n
  have hs : ∀ a, ((stateAfterReal t tc b n).agents a).status =
      ((stateAfterReal 0 0 b n).agents a).status := by
    apply applySteps_status_congr
    intro a
    rfl
  rw [activeCount_congr _ _ hs]
  cases b
  · rcases le_or_lt n ((realScript false).length) with hn | hn
    · exact realRun_activeCount_le_false n (List.mem_range.mpr (by omega))
    · rw [stateAfterReal_sat 0 0 false n (by omega)]
      exact realRun_activeCount_le_false _ (List.mem_range.mpr (by omega))
  · rcases le_or_lt n ((realScript true).length) with hn | hn
    · exact realRun_activeCount_le_true n (List.mem_range.mpr (by omega))
    · rw [stateAfterReal_sat 0 0 true n (by omega)]
      exact realRun_activeCount_le_true _ (List.mem_range.mpr (by omega))

/-- Witness for C5 amended: the bound at the state that refutes
"exactly one", the demo advance from the fresh real-mode state, and
poll preservation on the demo workflow. -/
theorem c5_active_stages_witness :
    activeCount (stateAfterReal 0 0 true 6) ≤ 2 ∧
    ((realCreate 0).queue = some (AgentName.code_analyzer ::
      [.doc_writer, .translation_agent, .diagram_generator, .quality_reviewer,
       .orchestrator, .feedback_collector]) ∧
     (((executeNextAgent 1 (realCreate 0)).agents .code_analyzer).status = .active ↔
       AgentName.code_analyzer = .code_analyzer)) ∧
    (atMostOneActive (demoCreate 0) ∧ atMostOneActive (pollStatus 4 (demoCreate 0))) := by
  have hone : atMostOneActive (demoCreate 0) := by
    intro x y hx hy
    revert hx hy
    revert x y
    decide
  exact ⟨c5_active_stages.1 0 0 true 6,
    ⟨by decide,
     c5_active_stages.2.1 1 (realCreate 0) .code_analyzer
       [.doc_writer, .translation_agent, .diagram_generator, .quality_reviewer,
        .orchestrator, .feedback_collector] (by decide) .code_analyzer⟩,
    ⟨hone, c5_active_stages.2.2 4 (demoCreate 0) hone⟩⟩

/-- C1: every workflow that reaches "completed" — through the
successful background real pipeline or through the demo pipeline's
final advance on a qualifying poll — has progress 100, a non-null
`completed_at`, and all seven stages "completed". -/
theorem c1_completed_state :
    (∀ t b s,
      (runAiWorkflowSuccess t b s).status = .completed ∧
      (runAiWorkflowSuccess t b s).progress = 100 ∧
      (runAiWorkflowSuccess t b s).completedAt = some t ∧
      ∀ a, ((runAiWorkflowSuccess t b s).agents a).status = .completed) ∧
    (∀ now st s a,
      s.status = .processing → s.aiPowered = false →
      s.queue = some [] → s.currentAgent = some a →
      (s.agents a).startedAt = some st → 3 < now - st →
      (∀ x, x ≠ a → (s.agents x).status = .completed) →
      (pollStatus now s).status = .completed ∧
      (pollStatus now s).progress = 100 ∧
      (pollStatus now s).completedAt = some now ∧
      (pollStatus now s).result = some .demoResult ∧
      ∀ x, ((pollStatus now s).agents x).status = .completed) := by
  constructor
  · intro t b s
    cases b
    · exact ⟨rfl, rfl, rfl, fun a => by cases a <;> rfl⟩
    · exact ⟨rfl, rfl, rfl, fun a => by cases a <;> rfl⟩
  · intro now st s a h1 h2 hq hca hst hd hall
    rw [pollStatus_advance_eq now st s a [] h1 h2 hq hca hst hd]
    have hq2 : (completeAgent now a s).queue = some [] := hq
    have he : executeNextAgent now (completeAgent now a s) =
        completeDemo now (completeAgent now a s) := by
      unfold executeNextAgent
      rw [hq2]
    rw [he]
    refine ⟨rfl, rfl, rfl, rfl, ?_⟩
    intro x
    show ((completeAgent now a s).agents x).status = .completed
    by_cases hx : x = a
    · subst hx
      simp [completeAgent]
    · simpa [completeAgent, hx] using hall x hx

/-- Witness for C1: the background run from the fresh tds real-mode
workflow, and the root demo workflow after six qualifying polls,
finalized by a seventh poll at time 28. -/
theorem c1_completed_state_witness :
    ((runAiWorkflowSuccess 40 true (realCreate 0)).status = .completed ∧
     (runAiWorkflowSuccess 40 true (realCreate 0)).progress = 100 ∧
     (runAiWorkflowSuccess 40 true (realCreate 0)).completedAt = some 40 ∧
     ∀ a, ((runAiWorkflowSuccess 40 true (realCreate 0)).agents a).status = .completed) ∧
    (demoAfterSixPolls.status = .processing ∧
     demoAfterSixPolls.queue = some [] ∧
     demoAfterSixPolls.currentAgent = some .feedback_collector ∧
     (demoAfterSixPolls.agents .feedback_collector).startedAt = some 24 ∧
     (pollStatus 28 demoAfterSixPolls).status = .completed ∧
     (pollStatus 28 demoAfterSixPolls).progress = 100 ∧
     (pollStatus 28 demoAfterSixPolls).completedAt = some 28 ∧
     ∀ x, ((pollStatus 28 demoAfterSixPolls).agents x).status = .completed) := by
  have h := c1_completed_state.2 28 24 demoAfterSixPolls .feedback_collector
    (by decide) (by decide) (by decide) (by decide) (by decide) (by decide) (by decide)
  exact ⟨c1_completed_state.1 40 true (realCreate 0),
    ⟨by decide, by decide, by decide, by decide, h.1, h.2.1, h.2.2.1, h.2.2.2.2⟩⟩

end TechDocSuite

